import Mathlib

/-!
Verification development for the Neural Bridge LLM-to-LLM communication hub.

The repository ships the React client (src/frontend/src/App.js); the
session and protocol extraction orchestrator it talks to over HTTP is
described by the design document. Definitions below are a shallow
embedding: client-side logic is translated from App.js, and the
server-side core (session store, codecs, orchestrator, error mapper) is
modelled from the design document where marked.

Text is represented as Lean String values; the character-level helpers
below re-implement the JavaScript string operations (trim, toLowerCase,
substring search, charAt-capitalisation) over the underlying character
lists so that all definitions evaluate inside the kernel.
-/

namespace NeuralBridge

/-- ASCII lower-casing of one character, as JavaScript toLowerCase does for
the ASCII range used by provider names and trigger words. -/
def lowAscii (c : Char) : Char :=
  if 65 ≤ c.toNat ∧ c.toNat ≤ 90 then Char.ofNat (c.toNat + 32) else c

/-- ASCII upper-casing of one character, as JavaScript toUpperCase does for
the ASCII range used by provider names. -/
def upAscii (c : Char) : Char :=
  if 97 ≤ c.toNat ∧ c.toNat ≤ 122 then Char.ofNat (c.toNat - 32) else c

/-- Lower-case every character of a list. -/
def lowerList (l : List Char) : List Char := l.map lowAscii

/-- Remove leading and trailing whitespace, as JavaScript String.trim. -/
def trimList (l : List Char) : List Char :=
  ((l.dropWhile Char.isWhitespace).reverse.dropWhile Char.isWhitespace).reverse

/-- String-level trim. -/
def trimS (s : String) : String := String.mk (trimList s.data)

/-- True when the query is empty or whitespace-only: the JavaScript guard
`!query.trim()`. -/
def queryBlank (s : String) : Bool := (trimList s.data).isEmpty

/-- Does the first list occur at the head of the second? -/
def seqStarts : List Char → List Char → Bool
  | [], _ => true
  | _ :: _, [] => false
  | a :: as, b :: bs => a = b && seqStarts as bs

/-- Does the first list occur contiguously anywhere in the second?
Implements the JavaScript `includes` check on strings. -/
def containsSeq (pat : List Char) : List Char → Bool
  | [] => pat.isEmpty
  | c :: t => seqStarts pat (c :: t) || containsSeq pat t

/-- String-level case-sensitive substring test, JavaScript `s.includes(pat)`. -/
def containsSub (s pat : String) : Bool := containsSeq pat.data s.data

/-- Case-insensitive substring test: lower-case the text first. -/
def containsSubCI (s pat : String) : Bool := containsSeq pat.data (lowerList s.data)

/-- JavaScript `p.charAt(0).toUpperCase() + p.slice(1)` used by App.js to
name the provider in the missing-key message. -/
def capitalizeS (s : String) : String :=
  match s.data with
  | [] => ""
  | c :: rest => String.mk (upAscii c :: rest)

/-! ## Client-side data model (from src/frontend/src/App.js) -/

/-- A model selection as held in App.js state: provider, model_name,
display_name (the ModelDescriptor of the design document). -/
structure ModelSel where
  provider : String
  model_name : String
  display_name : String
deriving DecidableEq, Repr

/-- The apiKeys state object of App.js: one field per provider, empty
string when the operator supplied no key. -/
structure ApiKeys where
  openai : String
  anthropic : String
  gemini : String
deriving DecidableEq, Repr

/-- JavaScript `apiKeys[provider]`: a field access on the three-field
object, undefined (none) for any other provider name. -/
def lookupKey (k : ApiKeys) (p : String) : Option String :=
  if p = "openai" then some k.openai
  else if p = "anthropic" then some k.anthropic
  else if p = "gemini" then some k.gemini
  else none

/-- JavaScript truthiness of a possibly-undefined key string: undefined
and the empty string are falsy. -/
def keyUsable : Option String → Bool
  | none => false
  | some s => !s.data.isEmpty

/-- The provider exempt from the missing-key check in App.js
(createSession compares against the literal string openai). -/
def defaultProvider : String := "openai"

/-- Provider order of the key-configuration state object in App.js,
matching the registry order of the design document. -/
def registryProviders : List String := ["openai", "anthropic", "gemini"]

/-- The error message App.js shows for a missing key, naming the
capitalised provider and the role (host or target). -/
def missingKeyMessage (p role : String) : String :=
  "Please provide " ++ capitalizeS p ++ " API key for the " ++ role ++ " LLM"

/-- The POST /session body assembled by createSession. -/
structure SessionData where
  host_llm : ModelSel
  target_llm : ModelSel
  protocol : String
  api_keys : ApiKeys
deriving DecidableEq, Repr

/-- Outcome of the createSession handler before any response arrives:
either it returns early with a client-side error (no network call), or it
issues the POST /session request with the given body. -/
inductive CreateAction where
  | blocked (msg : String)
  | post (body : SessionData)
deriving DecidableEq, Repr

/-- The createSession handler of App.js: checks the host key, then the
target key, each skipped for the openai provider, and only then posts. -/
def createSession (hostLLM targetLLM : ModelSel) (protocol : String)
    (apiKeys : ApiKeys) : CreateAction :=
  let hostKey := lookupKey apiKeys hostLLM.provider
  let targetKey := lookupKey apiKeys targetLLM.provider
  if !keyUsable hostKey && hostLLM.provider ≠ defaultProvider then
    .blocked (missingKeyMessage hostLLM.provider "host")
  else if !keyUsable targetKey && targetLLM.provider ≠ defaultProvider then
    .blocked (missingKeyMessage targetLLM.provider "target")
  else
    .post ⟨hostLLM, targetLLM, protocol, apiKeys⟩

/-- A session as the client receives and lists it: exactly the fields of
the GET /sessions element (id, host_llm, target_llm, protocol,
created_at, status) and nothing else. -/
structure SessionView where
  id : Nat
  host_llm : ModelSel
  target_llm : ModelSel
  protocol : String
  created_at : Nat
  status : String
deriving DecidableEq, Repr

/-- The POST /extract body assembled by extractInformation. -/
structure ExtractRequest where
  session_id : Nat
  query : String
  protocol : String
deriving DecidableEq, Repr

/-- The extractInformation handler of App.js up to the network call: the
guard `if (!currentSession || !query.trim()) return;` yields none (no
request issued); otherwise the posted body carries the trimmed query and
the protocol currently selected in the UI state, not the protocol stored
in the session. -/
def extractInformationRequest (currentSession : Option SessionView)
    (query protocol : String) : Option ExtractRequest :=
  match currentSession with
  | none => none
  | some s =>
      if queryBlank query then none
      else some ⟨s.id, trimS query, protocol⟩

/-! ## Server-side core, modelled from the design document

The orchestrator, codecs, session store and error mapper live behind the
HTTP surface and are not part of the shipped client source; each
definition below is modelled from the design document as noted. -/

/-- Modelled from the spec: the four interchangeable protocol codecs of
the Protocol Codec set (server side, not in the client source). -/
inductive Protocol where
  | mcp
  | gibberlink
  | droidspeak
  | natural
deriving DecidableEq, Repr

/-- Stable protocol name used as protocol_used. -/
def Protocol.name : Protocol → String
  | .mcp => "mcp"
  | .gibberlink => "gibberlink"
  | .droidspeak => "droidspeak"
  | .natural => "natural"

/-- Modelled from the spec: parsing of the protocol field of a request, a
malformed protocol name being a Validation failure (server side). -/
def parseProtocol (s : String) : Option Protocol :=
  if s = "mcp" then some .mcp
  else if s = "gibberlink" then some .gibberlink
  else if s = "droidspeak" then some .droidspeak
  else if s = "natural" then some .natural
  else none

/-- Modelled from the spec: the fixed ErrorKind taxonomy of the Error
Mapper (server side). -/
inductive ErrorKind where
  | Validation
  | Unauthorized
  | RateLimited
  | UnsupportedProviderForProtocol
  | ProtocolDecodeFailure
  | Unknown
deriving DecidableEq, Repr

/-- Modelled from the spec: the status-code contract of the HTTP surface:
400 Validation and UnsupportedProviderForProtocol, 401 Unauthorized,
429 RateLimited, 500 Unknown and internal (server side). -/
def statusOf : ErrorKind → Nat
  | .Validation => 400
  | .UnsupportedProviderForProtocol => 400
  | .Unauthorized => 401
  | .RateLimited => 429
  | .ProtocolDecodeFailure => 500
  | .Unknown => 500

/-- A classified failure as surfaced over HTTP: its ErrorKind plus the
human-readable detail string of the response body. -/
structure SurfacedError where
  kind : ErrorKind
  detail : String
deriving DecidableEq, Repr

/-! ### Protocol codecs -/

/-- Modelled from the spec: the MCP wire form, a structured envelope
carrying a type tag and the raw content; a malformed payload is plain
text (server side, wire format not mandated by the spec). -/
inductive MCPWire where
  | envelope (typeTag : String) (content : String)
  | plain (raw : String)
deriving DecidableEq, Repr

/-- Modelled from the spec: MCP encode wraps the query in a structured
envelope (server side). -/
def mcpEncode (q : String) : MCPWire := .envelope "mcp_request" q

/-- Modelled from the spec: MCP decode extracts the content of a
well-formed envelope and forgivingly treats a malformed payload as plain
text, never raising a terminal error (server side). -/
def mcpDecode : MCPWire → String
  | .envelope _ c => c
  | .plain raw => raw

/-- Modelled from the spec: the Natural codec is the identity in both
directions (server side). -/
def naturalEncode (q : String) : String := q

/-- Modelled from the spec: Natural decode, also the identity. -/
def naturalDecode (raw : String) : String := raw

/-- Modelled from the spec: the fixed reversible substitution table of
the GibberLink codec, mapping frequent phrase fragments to short symbol
tokens; the spec leaves the concrete table implementer-defined
(server side). -/
def gibberTable : List (String × String) :=
  [("information", "~inf"),
   ("capabilities", "~cap"),
   ("limitations", "~lim"),
   ("analysis", "~ana"),
   ("response", "~rsp"),
   ("request", "~req"),
   ("protocol", "~prt"),
   ("communication", "~com")]

/-- Is this fragment a vocabulary word of the substitution table? -/
def inVocab (w : String) : Bool := gibberTable.any (fun p => p.1 = w)

/-- Is this token one of the symbol tokens of the substitution table? -/
def inSymbols (t : String) : Bool := gibberTable.any (fun p => p.2 = t)

/-- Modelled from the spec: GibberLink encode on one fragment:
substitute a vocabulary word by its symbol token, pass anything else
through unchanged (server side). -/
def gibberEncodeFrag (w : String) : String :=
  match gibberTable.find? (fun p => p.1 = w) with
  | some p => p.2
  | none => w

/-- Modelled from the spec: GibberLink decode on one token: reverse a
known substitution, pass unknown tokens through unchanged (server side). -/
def gibberDecodeFrag (t : String) : String :=
  match gibberTable.find? (fun p => p.2 = t) with
  | some p => p.1
  | none => t

/-- GibberLink encode over a text given as its fragment sequence. -/
def gibberEncode (text : List String) : List String := text.map gibberEncodeFrag

/-- GibberLink decode over a token sequence. -/
def gibberDecode (toks : List String) : List String := toks.map gibberDecodeFrag

/-- Digits of a payload-length header read back as a number. -/
def digitsToNat (ds : List Char) : Nat :=
  ds.foldl (fun n c => n * 10 + (c.toNat - 48)) 0

/-- Modelled from the spec: DroidSpeak encode, a compact representation
with a small header recording the encoding version and the payload
length (server side). -/
def droidspeakEncode (s : String) : String :=
  String.mk ("DS1:".data ++ (Nat.repr s.data.length).data ++ ':' :: s.data)

/-- Modelled from the spec: DroidSpeak decode validates the header
before expanding; a header mismatch or truncated payload is a
ProtocolDecodeFailure, reported here as none (server side). -/
def droidspeakDecode (s : String) : Option String :=
  let l := s.data
  if seqStarts "DS1:".data l then
    let rest := l.drop 4
    let ds := rest.takeWhile Char.isDigit
    let rest2 := rest.dropWhile Char.isDigit
    match ds, rest2 with
    | [], _ => none
    | _ :: _, ':' :: payload =>
        if payload.length = digitsToNat ds then some (String.mk payload) else none
    | _ :: _, _ => none
  else none

/-- Split a character list on single spaces, the fragment boundaries the
GibberLink substitution operates over. -/
def splitSpaces : List Char → List Char → List (List Char)
  | [], acc => [acc.reverse]
  | ' ' :: t, acc => acc.reverse :: splitSpaces t []
  | c :: t, acc => splitSpaces t (c :: acc)

/-- Join fragments back with single spaces. -/
def joinSpaces (ws : List (List Char)) : List Char :=
  match ws with
  | [] => []
  | [w] => w
  | w :: rest => w ++ ' ' :: joinSpaces rest

/-- GibberLink encode over running text: substitute each
space-separated fragment through the table. -/
def gibberEncodeS (s : String) : String :=
  String.mk (joinSpaces ((splitSpaces s.data []).map
    (fun w => (gibberEncodeFrag (String.mk w)).data)))

/-- GibberLink decode over running text. -/
def gibberDecodeS (s : String) : String :=
  String.mk (joinSpaces ((splitSpaces s.data []).map
    (fun w => (gibberDecodeFrag (String.mk w)).data)))

/-- Serialised MCP envelope as sent to the target provider. -/
def mcpSerialize : MCPWire → String
  | .envelope t c => t ++ ": " ++ c
  | .plain raw => raw

/-- Modelled from the spec: MCP decode over the raw textual reply:
extract the content of a recognisably structured response, otherwise
fall back to the raw payload as plain text (server side). -/
def mcpDecodeS (raw : String) : String :=
  if seqStarts "mcp_response: ".data raw.data then
    String.mk (raw.data.drop 14)
  else raw

/-! ### Session store -/

/-- Session status: only active is exercised by this core. -/
inductive SessionStatus where
  | active
  | closed
deriving DecidableEq, Repr

/-- Stable status name as serialised over HTTP. -/
def SessionStatus.name : SessionStatus → String
  | .active => "active"
  | .closed => "closed"

/-- Modelled from the spec: a stored Session record of the Session Store,
including the per-session credential_bag (server side). -/
structure Session where
  id : Nat
  host_llm : ModelSel
  target_llm : ModelSel
  protocol : Protocol
  created_at : Nat
  status : SessionStatus
  credential_bag : ApiKeys
deriving DecidableEq, Repr

/-- The GET /sessions projection of one stored session: id, host_llm,
target_llm, protocol, created_at, status — and no credential field. -/
def sessionListView (s : Session) : SessionView :=
  ⟨s.id, s.host_llm, s.target_llm, s.protocol.name, s.created_at, s.status.name⟩

/-- Replace the credential bag of a session, all other fields kept. -/
def setBag (s : Session) (bag : ApiKeys) : Session :=
  ⟨s.id, s.host_llm, s.target_llm, s.protocol, s.created_at, s.status, bag⟩

/-- Modelled from the spec: the in-memory Session Store, a fresh-id
counter plus the records in creation order (server side). -/
structure Store where
  nextId : Nat
  sessions : List Session
deriving DecidableEq, Repr

/-- The ordered listing of the store, as served by GET /sessions. -/
def Store.listViews (st : Store) : List SessionView := st.sessions.map sessionListView

/-- Modelled from the spec: which protocol declares the cross-provider
restriction; the ultra-efficient DroidSpeak encoding is assumed to
depend on provider-specific tokenization (server side). -/
def restrictedProtocol : Protocol → Bool
  | .droidspeak => true
  | _ => false

/-- Modelled from the spec: Session Store create with the
cross-provider-restriction validation of session creation: on failure
the store is returned unchanged; on success the new record carries the
fresh id and is appended in creation order (server side). -/
def Store.create (st : Store) (host target : ModelSel) (protoName : String)
    (keys : ApiKeys) (now : Nat) : Except SurfacedError Session × Store :=
  match parseProtocol protoName with
  | none => (.error ⟨.Validation, "Malformed protocol name: " ++ protoName⟩, st)
  | some p =>
      if restrictedProtocol p && host.provider ≠ target.provider then
        (.error ⟨.UnsupportedProviderForProtocol,
          "Protocol " ++ p.name ++ " requires host and target to share provider " ++
            host.provider⟩, st)
      else
        let s : Session := ⟨st.nextId, host, target, p, now, .active, keys⟩
        (.ok s, ⟨st.nextId + 1, st.sessions ++ [s]⟩)

/-- Look a session up by id. -/
def findSession (st : Store) (i : Nat) : Option Session :=
  st.sessions.find? (fun s => s.id = i)

/-! ### Provider client and orchestrator -/

/-- One outbound provider invocation: provider, model, resolved key and
the prompt text. -/
structure InvokeCall where
  provider : String
  model : String
  key : String
  prompt : String
deriving DecidableEq, Repr

/-- Modelled from the spec: the failure modes of the Provider Client
contract — a rejected key, a quota signal, or any other transport or
provider error including timeout (server side). -/
inductive ProviderFailure where
  | unauthorized
  | rateLimited
  | unknown
deriving DecidableEq, Repr

/-- ErrorKind of a provider failure. -/
def ProviderFailure.kind : ProviderFailure → ErrorKind
  | .unauthorized => .Unauthorized
  | .rateLimited => .RateLimited
  | .unknown => .Unknown

/-- A provider reply: text, or a classified failure. -/
inductive ProviderReply where
  | reply (text : String)
  | failure (f : ProviderFailure)
deriving DecidableEq, Repr

/-- The opaque external providers: one reply per invocation. -/
def Oracle := InvokeCall → ProviderReply

/-- Modelled from the spec: the Error Mapper attaches the offending
provider name to a normalised provider failure so the surfaced detail is
actionable (server side). -/
def mapProviderFailure (provider : String) (f : ProviderFailure) : SurfacedError :=
  ⟨f.kind,
    "Provider " ++ provider ++ " failed: " ++
      (match f with
       | .unauthorized => "authentication rejected or key invalid"
       | .rateLimited => "rate limit or quota exhausted"
       | .unknown => "transport error or timeout")⟩

/-- Modelled from the spec: is a usable key available for this provider,
from the session bag or, for the default provider only, from the
process-wide fallback key (server side). -/
def keyUsableFor (bag : ApiKeys) (fallback : Option String) (p : String) : Bool :=
  keyUsable (lookupKey bag p) || (decide (p = defaultProvider) && fallback.isSome)

/-- Modelled from the spec: key resolution of the Provider Client — the
session bag first, then the process-wide fallback for the default
provider only, otherwise an Unauthorized failure naming the provider,
raised before any network call (server side). -/
def resolveKey (bag : ApiKeys) (fallback : Option String) (p : String) :
    Except SurfacedError String :=
  if keyUsable (lookupKey bag p) then .ok ((lookupKey bag p).getD "")
  else if p = defaultProvider then
    match fallback with
    | some f => .ok f
    | none => .error ⟨.Unauthorized, "Missing API key for provider " ++ p⟩
  else .error ⟨.Unauthorized, "Missing API key for provider " ++ p⟩

/-- Modelled from the spec: the demo trigger — the query contains,
case-insensitively, the substring demo or the substring test
(server side). -/
def demoTrigger (q : String) : Bool :=
  containsSubCI q "demo" || containsSubCI q "test"

/-- The ExtractionResult record of the HTTP surface: query,
target_response, host_analysis, protocol_used and nothing else. -/
structure ExtractionResult where
  query : String
  target_response : String
  host_analysis : String
  protocol_used : String
deriving DecidableEq, Repr

/-- Modelled from the spec: the deterministic, clearly-labeled Demo
Result, referencing the requested protocol as protocol_used and built
without any provider call (server side). -/
def demoResult (q : String) (p : Protocol) : ExtractionResult :=
  ⟨q,
   "DEMO MODE synthetic target response: deterministic canned answer produced without any provider call.",
   "DEMO MODE host analysis: deterministic demonstration of the exchange over protocol " ++ p.name ++ ".",
   p.name⟩

/-- An extraction request as the orchestrator receives it: session id,
query text, and the optional protocol override. -/
structure ExtractionQuery where
  session_id : Nat
  query : String
  protocol : Option String
deriving DecidableEq, Repr

/-- Wire-form encoding of the query under the selected codec. -/
def encodeWire : Protocol → String → String
  | .mcp, s => mcpSerialize (mcpEncode s)
  | .gibberlink, s => gibberEncodeS s
  | .droidspeak, s => droidspeakEncode s
  | .natural, s => naturalEncode s

/-- Modelled from the spec: the decode step over the raw target reply:
forgiving for MCP, token-wise reversal for GibberLink, identity for
Natural; a DroidSpeak header mismatch is recovered locally by falling
back to the raw text, escalating to Unknown only when that fallback text
is itself empty (server side). -/
def decodeStep (p : Protocol) (raw : String) : Except SurfacedError String :=
  match p with
  | .mcp => .ok (mcpDecodeS raw)
  | .gibberlink => .ok (gibberDecodeS raw)
  | .natural => .ok (naturalDecode raw)
  | .droidspeak =>
      match droidspeakDecode raw with
      | some txt => .ok txt
      | none =>
          if raw.data.isEmpty then
            .error ⟨.Unknown, "Decode fallback text is empty and unusable"⟩
          else .ok raw

/-- The host analysis prompt embedding the original query and the
canonical target answer. -/
def analysisPrompt (q canonical : String) : String :=
  "Analyze the following exchange. Query: " ++ q ++ " Target answer: " ++ canonical

/-- The protocol a request runs under: the override when sent and
parseable, the stored session protocol otherwise; none is the malformed
case. -/
def requestedProtocol (s : Session) (q : ExtractionQuery) : Option Protocol :=
  match q.protocol with
  | none => some s.protocol
  | some nm => parseProtocol nm

/-- Modelled from the spec: the cross-provider restriction predicate of
extraction validation, a pure check evaluated before any I/O
(server side). -/
def crossProviderViolation (s : Session) (p : Protocol) : Bool :=
  restrictedProtocol p && !(s.host_llm.provider == s.target_llm.provider)

/-- Modelled from the spec: the demo-shortcut predicate, a pure check
evaluated before any I/O: a trigger word in the query, or no usable key
for either session provider (server side). -/
def demoPath (s : Session) (fallback : Option String) (q : String) : Bool :=
  demoTrigger q ||
    (!keyUsableFor s.credential_bag fallback s.host_llm.provider &&
     !keyUsableFor s.credential_bag fallback s.target_llm.provider)

/-- The outbound invocation of the target provider: the wire-form
encoded query as prompt. -/
def targetCall (s : Session) (tkey : String) (proto : Protocol) (qt : String) : InvokeCall :=
  ⟨s.target_llm.provider, s.target_llm.model_name, tkey, encodeWire proto qt⟩

/-- The outbound invocation of the host provider: the analysis prompt
embedding the query and the canonical target answer. -/
def hostCall (s : Session) (hkey : String) (qt canonical : String) : InvokeCall :=
  ⟨s.host_llm.provider, s.host_llm.model_name, hkey, analysisPrompt qt canonical⟩

/-- Modelled from the spec: the live stages of the orchestrator after
validation and demo detection — encode, invoke the target, decode with
local recovery, invoke the host, assemble; the second component records
every outbound provider call in order (server side). -/
def invokePipeline (fallback : Option String) (oracle : Oracle) (s : Session)
    (proto : Protocol) (qt : String) :
    Except SurfacedError ExtractionResult × List InvokeCall :=
  match resolveKey s.credential_bag fallback s.target_llm.provider with
  | .error e => (.error e, [])
  | .ok tkey =>
      match oracle (targetCall s tkey proto qt) with
      | .failure f =>
          (.error (mapProviderFailure s.target_llm.provider f), [targetCall s tkey proto qt])
      | .reply raw =>
          match decodeStep proto raw with
          | .error e => (.error e, [targetCall s tkey proto qt])
          | .ok canonical =>
              match resolveKey s.credential_bag fallback s.host_llm.provider with
              | .error e => (.error e, [targetCall s tkey proto qt])
              | .ok hkey =>
                  match oracle (hostCall s hkey qt canonical) with
                  | .failure f =>
                      (.error (mapProviderFailure s.host_llm.provider f),
                        [targetCall s tkey proto qt, hostCall s hkey qt canonical])
                  | .reply analysis =>
                      (.ok ⟨qt, canonical, analysis, proto.name⟩,
                        [targetCall s tkey proto qt, hostCall s hkey qt canonical])

/-- Modelled from the spec: the Extraction Orchestrator state machine —
validate, check the cross-provider restriction, detect the demo
shortcut, then run the live pipeline (server side). -/
def orchestrate (st : Store) (fallback : Option String) (oracle : Oracle)
    (q : ExtractionQuery) : Except SurfacedError ExtractionResult × List InvokeCall :=
  if queryBlank q.query then
    (.error ⟨.Validation, "Query must not be empty or whitespace-only"⟩, [])
  else
    match findSession st q.session_id with
    | none => (.error ⟨.Validation, "Unknown session id"⟩, [])
    | some s =>
        match requestedProtocol s q with
        | none => (.error ⟨.Validation, "Malformed protocol name"⟩, [])
        | some proto =>
            if crossProviderViolation s proto then
              (.error ⟨.UnsupportedProviderForProtocol,
                "Protocol " ++ proto.name ++ " requires host and target to share provider " ++
                  s.host_llm.provider⟩, [])
            else if demoPath s fallback q.query then
              (.ok (demoResult (trimS q.query) proto), [])
            else invokePipeline fallback oracle s proto (trimS q.query)

/-! ### Client-side handling of the extraction response (App.js) -/

/-- An HTTP outcome of POST /extract as the client sees it: a result
body, or a failure status with its optional detail string. -/
inductive HttpOutcome where
  | ok (r : ExtractionResult)
  | err (status : Nat) (detail : Option String)
deriving DecidableEq, Repr

/-- The catch branches of extractInformation in App.js: 429 and 401 get
fixed texts, a 400 whose detail mentions only OpenAI is shown verbatim,
anything else shows the detail when present and truthy, else a generic
text. -/
def uiErrorMessage (status : Nat) (detail : Option String) : String :=
  if status = 429 then
    "API quota exceeded. Please check your OpenAI billing plan or try again later."
  else if status = 401 then
    "API authentication failed. Please check your API keys."
  else if decide (status = 400) && (match detail with
      | some d => containsSub d "only OpenAI"
      | none => false) then
    (match detail with | some d => d | none => "")
  else
    match detail with
    | some d => if d.data.isEmpty then "Extraction failed. Please try again." else d
    | none => "Extraction failed. Please try again."

/-- The (result, error) client state after one extractInformation run:
both are cleared before the request; a success stores the body and a
failure stores only the mapped message, leaving the result cleared. -/
def uiAfterExtract (o : HttpOutcome) : Option ExtractionResult × Option String :=
  match o with
  | .ok r => (some r, none)
  | .err status detail => (none, some (uiErrorMessage status detail))

/-! ## Claim theorems -/

/-- C1: a session-creation attempt whose host or target provider is not
the default provider openai and has no usable key in the credential bag
is blocked before the POST /session network call, with a message naming
the missing-key provider; when both providers are the default the
request proceeds with no session-supplied key, and openai is the first
registry provider. -/
theorem C1_missing_key_fails_fast (host target : ModelSel) (protocol : String)
    (keys : ApiKeys) :
    (host.provider ≠ defaultProvider →
      keyUsable (lookupKey keys host.provider) = false →
      createSession host target protocol keys =
        .blocked (missingKeyMessage host.provider "host"))
    ∧ (target.provider ≠ defaultProvider →
        keyUsable (lookupKey keys target.provider) = false →
        (keyUsable (lookupKey keys host.provider) = true ∨ host.provider = defaultProvider) →
        createSession host target protocol keys =
          .blocked (missingKeyMessage target.provider "target"))
    ∧ (host.provider = defaultProvider → target.provider = defaultProvider →
        createSession host target protocol keys = .post ⟨host, target, protocol, keys⟩)
    ∧ (∀ p role, ∃ pre post,
        pre ++ (capitalizeS p).data ++ post = (missingKeyMessage p role).data)
    ∧ registryProviders.head? = some defaultProvider := by
  refine ⟨?_, ?_, ?_, ?_, rfl⟩
  · intro hnd hk
    simp [createSession, hk, hnd]
  · intro hnd hk hh
    rcases hh with hh | hh <;> simp [createSession, hk, hnd, hh]
  · intro h1 h2
    simp [createSession, h1, h2, defaultProvider]
  · intro p role
    refine ⟨"Please provide ".data, (" API key for the " ++ role ++ " LLM").data, ?_⟩
    simp [missingKeyMessage, String.data_append, List.append_assoc]

/-- Witness for C1 at concrete inputs: an anthropic host with an empty
bag is blocked with the message naming Anthropic; two openai selections
proceed with an empty bag. -/
theorem C1_missing_key_fails_fast_witness :
    createSession ⟨"anthropic", "claude", "Claude"⟩ ⟨"openai", "gpt-4o", "GPT-4o"⟩
        "mcp" ⟨"", "", ""⟩ =
      .blocked "Please provide Anthropic API key for the host LLM"
    ∧ createSession ⟨"openai", "gpt-4o", "GPT-4o"⟩ ⟨"openai", "gpt-4o-mini", "GPT-4o Mini"⟩
        "mcp" ⟨"", "", ""⟩ =
      .post ⟨⟨"openai", "gpt-4o", "GPT-4o"⟩, ⟨"openai", "gpt-4o-mini", "GPT-4o Mini"⟩,
        "mcp", ⟨"", "", ""⟩⟩ := by
  constructor
  · have h := (C1_missing_key_fails_fast ⟨"anthropic", "claude", "Claude"⟩
      ⟨"openai", "gpt-4o", "GPT-4o"⟩ "mcp" ⟨"", "", ""⟩).1 (by decide) (by decide)
    rw [h]
    decide
  · exact (C1_missing_key_fails_fast ⟨"openai", "gpt-4o", "GPT-4o"⟩
      ⟨"openai", "gpt-4o-mini", "GPT-4o Mini"⟩ "mcp" ⟨"", "", ""⟩).2.2.1 rfl rfl

/-- C10: the POST /extract body sent by the client carries the protocol
currently selected in the UI state, not the protocol stored in the
session, so when the selection has changed since creation the sent
protocol differs from the session protocol. -/
theorem C10_protocol_override_from_ui (cs : SessionView) (query uiProtocol : String)
    (h : queryBlank query = false) :
    extractInformationRequest (some cs) query uiProtocol =
      some ⟨cs.id, trimS query, uiProtocol⟩
    ∧ (uiProtocol ≠ cs.protocol →
        ∀ req, extractInformationRequest (some cs) query uiProtocol = some req →
          req.protocol = uiProtocol ∧ req.protocol ≠ cs.protocol) := by
  constructor
  · simp [extractInformationRequest, h]
  · intro hne req hreq
    simp [extractInformationRequest, h] at hreq
    subst hreq
    exact ⟨rfl, hne⟩

/-- Witness for C10: a session created with mcp, the UI selection moved
to natural; the request carries natural. -/
theorem C10_protocol_override_from_ui_witness :
    extractInformationRequest
        (some ⟨7, ⟨"openai", "gpt-4o", "GPT-4o"⟩, ⟨"openai", "gpt-4o-mini", "GPT-4o Mini"⟩,
          "mcp", 0, "active"⟩) " What can you do? " "natural" =
      some ⟨7, "What can you do?", "natural"⟩ := by
  have h := (C10_protocol_override_from_ui
    ⟨7, ⟨"openai", "gpt-4o", "GPT-4o"⟩, ⟨"openai", "gpt-4o-mini", "GPT-4o Mini"⟩,
      "mcp", 0, "active"⟩ " What can you do? " "natural" (by decide)).1
  rw [h]
  decide

/-- Each vocabulary fragment survives the GibberLink substitution round
trip: encoding to its symbol token and decoding recovers the fragment. -/
theorem gibberFragRoundtrip (w : String) (hw : inVocab w = true) :
    gibberDecodeFrag (gibberEncodeFrag w) = w := by
  rw [inVocab, List.any_eq_true] at hw
  obtain ⟨p, hp, hpe⟩ := hw
  have hw' : p.1 = w := of_decide_eq_true hpe
  subst hw'
  fin_cases hp <;> decide

/-- A fragment outside the vocabulary is untouched by GibberLink encode. -/
theorem gibberEncodeFragOOV (w : String) (hw : inVocab w = false) :
    gibberEncodeFrag w = w := by
  rw [gibberEncodeFrag]
  have hfind : gibberTable.find? (fun p => p.1 = w) = none := by
    rw [List.find?_eq_none]
    intro p hp hpe
    have : inVocab w = true := by
      rw [inVocab, List.any_eq_true]
      exact ⟨p, hp, hpe⟩
    simp [this] at hw
  rw [hfind]

/-- A token outside the symbol table is untouched by GibberLink decode. -/
theorem gibberDecodeFragOOV (t : String) (ht : inSymbols t = false) :
    gibberDecodeFrag t = t := by
  rw [gibberDecodeFrag]
  have hfind : gibberTable.find? (fun p => p.2 = t) = none := by
    rw [List.find?_eq_none]
    intro p hp hpe
    have : inSymbols t = true := by
      rw [inSymbols, List.any_eq_true]
      exact ⟨p, hp, hpe⟩
    simp [this] at ht
  rw [hfind]

/-- C4: decode after encode is the identity — for GibberLink on every
text made purely of vocabulary fragments, for MCP and Natural on every
text; GibberLink passes out-of-vocabulary fragments through both
directions unmodified. -/
theorem C4_codec_roundtrip :
    (∀ T : List String, (∀ w ∈ T, inVocab w = true) →
      gibberDecode (gibberEncode T) = T)
    ∧ (∀ m : String, mcpDecode (mcpEncode m) = m)
    ∧ (∀ t : String, naturalDecode (naturalEncode t) = t)
    ∧ (∀ w : String, inVocab w = false → gibberEncodeFrag w = w)
    ∧ (∀ t : String, inSymbols t = false → gibberDecodeFrag t = t) := by
  refine ⟨?_, fun m => rfl, fun t => rfl, gibberEncodeFragOOV, gibberDecodeFragOOV⟩
  intro T hT
  induction T with
  | nil => rfl
  | cons w t ih =>
      rw [gibberEncode, gibberDecode, List.map_cons, List.map_cons]
      have hw : inVocab w = true := hT w (by simp)
      have ht : ∀ x ∈ t, inVocab x = true := fun x hx => hT x (by simp [hx])
      have := ih ht
      rw [gibberEncode, gibberDecode] at this
      rw [gibberFragRoundtrip w hw, this]

/-- Witness for C4 at concrete inputs: a two-fragment vocabulary text
round-trips under GibberLink, MCP and Natural round-trip a concrete
query, and the out-of-vocabulary fragment hello passes through both
directions. -/
theorem C4_codec_roundtrip_witness :
    gibberDecode (gibberEncode ["information", "request"]) = ["information", "request"]
    ∧ mcpDecode (mcpEncode "What are your core capabilities?") =
        "What are your core capabilities?"
    ∧ naturalDecode (naturalEncode "hello there") = "hello there"
    ∧ gibberEncodeFrag "hello" = "hello"
    ∧ gibberDecodeFrag "hello" = "hello" :=
  ⟨C4_codec_roundtrip.1 ["information", "request"] (by decide),
   C4_codec_roundtrip.2.1 "What are your core capabilities?",
   C4_codec_roundtrip.2.2.1 "hello there",
   C4_codec_roundtrip.2.2.2.1 "hello" (by decide),
   C4_codec_roundtrip.2.2.2.2 "hello" (by decide)⟩

/-- Store invariant: every stored id is below the fresh-id counter and
the stored ids are pairwise distinct. -/
def StoreInv (st : Store) : Prop :=
  (∀ s ∈ st.sessions, s.id < st.nextId) ∧ (st.sessions.map Session.id).Nodup

/-- C8: under the store invariant, a successful create yields a session
whose id differs from every previously stored id, appends it at the end
of the listing in creation order with no duplication or loss, and
preserves the invariant. -/
theorem C8_fresh_id_and_ordered_list (st : Store) (host target : ModelSel)
    (pn : String) (keys : ApiKeys) (now : Nat) (s : Session) (st2 : Store)
    (hinv : StoreInv st)
    (h : Store.create st host target pn keys now = (.ok s, st2)) :
    s.id ∉ st.sessions.map Session.id
    ∧ st2.sessions = st.sessions ++ [s]
    ∧ st2.listViews = st.listViews ++ [sessionListView s]
    ∧ StoreInv st2 := by
  unfold Store.create at h
  split at h
  · simp at h
  · split at h
    · simp at h
    · simp only [Prod.mk.injEq, Except.ok.injEq] at h
      obtain ⟨hs, hst⟩ := h
      subst hs
      subst hst
      refine ⟨?_, rfl, ?_, ?_, ?_⟩
      · intro hmem
        simp only [List.mem_map] at hmem
        obtain ⟨x, hx, hid⟩ := hmem
        exact absurd hid (Nat.ne_of_lt (hinv.1 x hx))
      · simp [Store.listViews]
      · intro x hx
        simp only [List.mem_append, List.mem_singleton] at hx
        rcases hx with hx | hx
        · exact Nat.lt_trans (hinv.1 x hx) (Nat.lt_succ_self _)
        · subst hx
          exact Nat.lt_succ_self _
      · simp only [List.map_append, List.map_cons, List.map_nil]
        rw [List.nodup_append]
        refine ⟨hinv.2, List.nodup_singleton _, ?_⟩
        intro a ha hb
        simp only [List.mem_map] at ha
        obtain ⟨x, hx, hid⟩ := ha
        simp only [List.mem_singleton] at hb
        subst hb
        exact absurd hid (Nat.ne_of_lt (hinv.1 x hx))

/-- Witness for C8: creating in the empty store yields id 0, listed once
at the end, and the invariant persists. -/
theorem C8_fresh_id_and_ordered_list_witness :
    ((⟨0, ⟨"openai", "gpt-4o", "GPT-4o"⟩, ⟨"openai", "gpt-4o-mini", "GPT-4o Mini"⟩,
        .mcp, 5, .active, ⟨"sk-demo", "", ""⟩⟩ : Session)).id ∉
      (([] : List Session).map Session.id)
    ∧ (⟨1, [⟨0, ⟨"openai", "gpt-4o", "GPT-4o"⟩, ⟨"openai", "gpt-4o-mini", "GPT-4o Mini"⟩,
        .mcp, 5, .active, ⟨"sk-demo", "", ""⟩⟩]⟩ : Store).sessions =
      ([] : List Session) ++ [⟨0, ⟨"openai", "gpt-4o", "GPT-4o"⟩,
        ⟨"openai", "gpt-4o-mini", "GPT-4o Mini"⟩, .mcp, 5, .active, ⟨"sk-demo", "", ""⟩⟩]
    ∧ Store.listViews ⟨1, [⟨0, ⟨"openai", "gpt-4o", "GPT-4o"⟩,
        ⟨"openai", "gpt-4o-mini", "GPT-4o Mini"⟩, .mcp, 5, .active, ⟨"sk-demo", "", ""⟩⟩]⟩ =
      Store.listViews ⟨0, []⟩ ++ [sessionListView ⟨0, ⟨"openai", "gpt-4o", "GPT-4o"⟩,
        ⟨"openai", "gpt-4o-mini", "GPT-4o Mini"⟩, .mcp, 5, .active, ⟨"sk-demo", "", ""⟩⟩]
    ∧ StoreInv ⟨1, [⟨0, ⟨"openai", "gpt-4o", "GPT-4o"⟩,
        ⟨"openai", "gpt-4o-mini", "GPT-4o Mini"⟩, .mcp, 5, .active, ⟨"sk-demo", "", ""⟩⟩]⟩ :=
  C8_fresh_id_and_ordered_list ⟨0, []⟩ ⟨"openai", "gpt-4o", "GPT-4o"⟩
    ⟨"openai", "gpt-4o-mini", "GPT-4o Mini"⟩ "mcp" ⟨"sk-demo", "", ""⟩ 5 _ _
    ⟨by simp, by simp⟩ (by rfl)

/-- C5: creating a session with the provider-restricted DroidSpeak
protocol and mismatched host and target providers fails with
UnsupportedProviderForProtocol surfaced as 400, the detail names the
required provider, the store is returned unchanged so a subsequent
listing does not contain the attempt, and no provider call is involved
in creation at all. -/
theorem C5_restricted_protocol_create_fails (st : Store) (host target : ModelSel)
    (pn : String) (p : Protocol) (keys : ApiKeys) (now : Nat)
    (hp : parseProtocol pn = some p)
    (hr : restrictedProtocol p = true)
    (hne : host.provider ≠ target.provider) :
    Store.create st host target pn keys now =
      (.error ⟨.UnsupportedProviderForProtocol,
        "Protocol " ++ p.name ++ " requires host and target to share provider " ++
          host.provider⟩, st)
    ∧ statusOf .UnsupportedProviderForProtocol = 400
    ∧ (Store.create st host target pn keys now).2.listViews = st.listViews
    ∧ (∃ pre post, pre ++ host.provider.data ++ post =
        ("Protocol " ++ p.name ++ " requires host and target to share provider " ++
          host.provider).data) := by
  have hcr : Store.create st host target pn keys now =
      (.error ⟨.UnsupportedProviderForProtocol,
        "Protocol " ++ p.name ++ " requires host and target to share provider " ++
          host.provider⟩, st) := by
    unfold Store.create
    rw [hp]
    simp [hr, hne]
  refine ⟨hcr, rfl, by rw [hcr], ?_⟩
  refine ⟨("Protocol " ++ p.name ++ " requires host and target to share provider ").data,
    [], ?_⟩
  simp [String.data_append]

/-- Witness for C5: a droidspeak session across openai and anthropic is
rejected and the empty store stays empty. -/
theorem C5_restricted_protocol_create_fails_witness :
    Store.create ⟨0, []⟩ ⟨"openai", "gpt-4o", "GPT-4o"⟩
        ⟨"anthropic", "claude", "Claude"⟩ "droidspeak" ⟨"a", "b", ""⟩ 9 =
      (.error ⟨.UnsupportedProviderForProtocol,
        "Protocol droidspeak requires host and target to share provider openai"⟩, ⟨0, []⟩)
    ∧ (Store.create ⟨0, []⟩ ⟨"openai", "gpt-4o", "GPT-4o"⟩
        ⟨"anthropic", "claude", "Claude"⟩ "droidspeak" ⟨"a", "b", ""⟩ 9).2.listViews =
      Store.listViews ⟨0, []⟩ := by
  have h := C5_restricted_protocol_create_fails ⟨0, []⟩ ⟨"openai", "gpt-4o", "GPT-4o"⟩
    ⟨"anthropic", "claude", "Claude"⟩ "droidspeak" .droidspeak ⟨"a", "b", ""⟩ 9
    (by decide) rfl (by decide)
  exact ⟨h.1, h.2.2.1⟩

/-- A string with a nonempty character list is not the empty string. -/
theorem str_ne_empty_of_data (s : String) (h : s.data ≠ []) : s ≠ "" := by
  intro hc
  apply h
  rw [hc]

/-- Appending on the right keeps the character list nonempty. -/
theorem append_data_ne (a b : String) (h : a.data ≠ []) : (a ++ b).data ≠ [] := by
  rw [String.data_append]
  intro hc
  exact h (List.append_eq_nil.mp hc).1

/-- C6: an extraction whose query is empty or whitespace-only, or whose
session id is unknown, is rejected with a Validation error and the
provider-call trace is empty; on the client side a blank query never
even produces a POST /extract request. -/
theorem C6_validation_boundary (st : Store) (fb : Option String) (oracle : Oracle)
    (q : ExtractionQuery) :
    (queryBlank q.query = true →
      orchestrate st fb oracle q =
        (.error ⟨.Validation, "Query must not be empty or whitespace-only"⟩, []))
    ∧ (queryBlank q.query = false → findSession st q.session_id = none →
      orchestrate st fb oracle q = (.error ⟨.Validation, "Unknown session id"⟩, []))
    ∧ (∀ cs query proto, queryBlank query = true →
        extractInformationRequest cs query proto = none) := by
  refine ⟨?_, ?_, ?_⟩
  · intro h
    simp [orchestrate, h]
  · intro h1 h2
    simp [orchestrate, h1, h2]
  · intro cs query proto h
    cases cs with
    | none => rfl
    | some s => simp [extractInformationRequest, h]

/-- Witness for C6: a whitespace-only query against any store is a
Validation error with no provider calls, an unknown session id likewise,
and the client sends nothing for a blank query. -/
theorem C6_validation_boundary_witness :
    orchestrate ⟨0, []⟩ none (fun _ => .reply "x") ⟨3, "   ", none⟩ =
      (.error ⟨.Validation, "Query must not be empty or whitespace-only"⟩, [])
    ∧ orchestrate ⟨0, []⟩ none (fun _ => .reply "x") ⟨3, "hello", none⟩ =
      (.error ⟨.Validation, "Unknown session id"⟩, [])
    ∧ extractInformationRequest none "   " "mcp" = none :=
  ⟨(C6_validation_boundary ⟨0, []⟩ none (fun _ => .reply "x") ⟨3, "   ", none⟩).1 (by decide),
   (C6_validation_boundary ⟨0, []⟩ none (fun _ => .reply "x") ⟨3, "hello", none⟩).2.1
     (by decide) rfl,
   (C6_validation_boundary ⟨0, []⟩ none (fun _ => .reply "x") ⟨3, "x", none⟩).2.2
     none "   " "mcp" (by decide)⟩

/-- C2: when the query carries a demo or test trigger, or neither
session provider has a usable key, a validated extraction short-circuits
to the deterministic demo result: it succeeds, issues zero provider
calls, both synthetic texts are nonempty, and protocol_used is the
requested protocol. -/
theorem C2_demo_short_circuit (st : Store) (fb : Option String) (oracle : Oracle)
    (q : ExtractionQuery) (s : Session) (proto : Protocol)
    (hq : queryBlank q.query = false)
    (hs : findSession st q.session_id = some s)
    (hp : requestedProtocol s q = some proto)
    (hr : crossProviderViolation s proto = false)
    (hd : demoPath s fb q.query = true) :
    orchestrate st fb oracle q = (.ok (demoResult (trimS q.query) proto), [])
    ∧ (demoResult (trimS q.query) proto).target_response ≠ ""
    ∧ (demoResult (trimS q.query) proto).host_analysis ≠ ""
    ∧ (demoResult (trimS q.query) proto).protocol_used = proto.name := by
  have h1 : orchestrate st fb oracle q = (.ok (demoResult (trimS q.query) proto), []) := by
    simp [orchestrate, hq, hs, hp, hr, hd]
  have h2 : (demoResult (trimS q.query) proto).target_response ≠ "" := by
    show ("DEMO MODE synthetic target response: deterministic canned answer produced without any provider call." : String) ≠ ""
    decide
  have h3 : (demoResult (trimS q.query) proto).host_analysis ≠ "" := by
    show ("DEMO MODE host analysis: deterministic demonstration of the exchange over protocol "
      ++ proto.name ++ ".") ≠ ""
    apply str_ne_empty_of_data
    apply append_data_ne
    apply append_data_ne
    decide
  exact ⟨h1, h2, h3, rfl⟩

/-- Witness for C2: the query demo please, in a session whose bag holds
an anthropic key for both providers, still short-circuits to the demo
result on the trigger with zero provider calls. -/
theorem C2_demo_short_circuit_witness :
    orchestrate
        ⟨1, [⟨0, ⟨"anthropic", "claude", "Claude"⟩, ⟨"anthropic", "claude", "Claude"⟩,
          .mcp, 2, .active, ⟨"", "sk-ant", ""⟩⟩]⟩ none
        (fun _ => .reply "ignored") ⟨0, "demo please", some "mcp"⟩ =
      (.ok (demoResult "demo please" .mcp), [])
    ∧ (demoResult "demo please" Protocol.mcp).target_response ≠ ""
    ∧ (demoResult "demo please" Protocol.mcp).host_analysis ≠ ""
    ∧ (demoResult "demo please" Protocol.mcp).protocol_used = Protocol.mcp.name := by
  have h := C2_demo_short_circuit
    ⟨1, [⟨0, ⟨"anthropic", "claude", "Claude"⟩, ⟨"anthropic", "claude", "Claude"⟩,
      .mcp, 2, .active, ⟨"", "sk-ant", ""⟩⟩]⟩ none
    (fun _ => .reply "ignored") ⟨0, "demo please", some "mcp"⟩
    ⟨0, ⟨"anthropic", "claude", "Claude"⟩, ⟨"anthropic", "claude", "Claude"⟩,
      .mcp, 2, .active, ⟨"", "sk-ant", ""⟩⟩ .mcp
    (by decide) (by rfl) (by rfl) (by decide) (by decide)
  have htrim : trimS "demo please" = "demo please" := by decide
  rw [htrim] at h
  exact h

/-- Every failure of key resolution is the fixed Unauthorized error
naming the provider. -/
theorem resolveKey_error_eq (bag : ApiKeys) (fb : Option String) (p : String)
    (e : SurfacedError) (h : resolveKey bag fb p = .error e) :
    e = ⟨.Unauthorized, "Missing API key for provider " ++ p⟩ := by
  unfold resolveKey at h
  split at h
  · exact absurd h (by simp)
  · split at h
    · split at h
      · exact absurd h (by simp)
      · simp only [Except.error.injEq] at h
        exact h.symm
    · simp only [Except.error.injEq] at h
      exact h.symm

/-- The only failure the decode step can raise is Unknown on an empty
unusable fallback text. -/
theorem decodeStep_error_eq (p : Protocol) (raw : String) (e : SurfacedError)
    (h : decodeStep p raw = .error e) :
    e = ⟨.Unknown, "Decode fallback text is empty and unusable"⟩ := by
  cases p with
  | mcp => simp [decodeStep] at h
  | gibberlink => simp [decodeStep] at h
  | natural => simp [decodeStep] at h
  | droidspeak =>
      simp only [decodeStep] at h
      split at h
      · exact absurd h (by simp)
      · split at h
        · simp only [Except.error.injEq] at h
          exact h.symm
        · exact absurd h (by simp)

/-- The mapped provider failure names the provider in a nonempty detail
and is never ProtocolDecodeFailure. -/
theorem mapProviderFailure_shape (p : String) (f : ProviderFailure) :
    (mapProviderFailure p f).detail ≠ ""
    ∧ (mapProviderFailure p f).kind ≠ .ProtocolDecodeFailure := by
  constructor
  · cases f <;>
      (simp only [mapProviderFailure]
       apply str_ne_empty_of_data
       apply append_data_ne
       apply append_data_ne
       apply append_data_ne
       decide)
  · cases f <;> simp [mapProviderFailure, ProviderFailure.kind]

/-- Every failure the live pipeline can surface carries a nonempty
detail and is never the locally recovered ProtocolDecodeFailure. -/
theorem resolveKey_error_shape (bag : ApiKeys) (fb : Option String) (p : String)
    (e : SurfacedError) (h : resolveKey bag fb p = .error e) :
    e.detail ≠ "" ∧ e.kind ≠ .ProtocolDecodeFailure := by
  have he := resolveKey_error_eq bag fb p e h
  subst he
  constructor
  · apply str_ne_empty_of_data
    apply append_data_ne
    decide
  · simp

/-- Every failure the live pipeline surfaces carries a nonempty detail
and is never the locally recovered ProtocolDecodeFailure. -/
theorem invokePipeline_error_shape (fb : Option String) (oracle : Oracle)
    (s : Session) (proto : Protocol) (qt : String) (e : SurfacedError)
    (h : (invokePipeline fb oracle s proto qt).1 = .error e) :
    e.detail ≠ "" ∧ e.kind ≠ .ProtocolDecodeFailure := by
  unfold invokePipeline at h
  cases hT : resolveKey s.credential_bag fb s.target_llm.provider with
  | error e0 =>
      rw [hT] at h
      simp only at h
      injection h with h2
      subst h2
      exact resolveKey_error_shape _ _ _ _ hT
  | ok tkey =>
      rw [hT] at h
      simp only at h
      cases hO : oracle (targetCall s tkey proto qt) with
      | failure f =>
          rw [hO] at h
          simp only at h
          injection h with h2
          subst h2
          exact mapProviderFailure_shape _ _
      | reply raw =>
          rw [hO] at h
          simp only at h
          cases hD : decodeStep proto raw with
          | error e0 =>
              rw [hD] at h
              simp only at h
              injection h with h2
              subst h2
              have he := decodeStep_error_eq _ _ _ hD
              subst he
              exact ⟨by decide, by decide⟩
          | ok canonical =>
              rw [hD] at h
              simp only at h
              cases hH : resolveKey s.credential_bag fb s.host_llm.provider with
              | error e0 =>
                  rw [hH] at h
                  simp only at h
                  injection h with h2
                  subst h2
                  exact resolveKey_error_shape _ _ _ _ hH
              | ok hkey =>
                  rw [hH] at h
                  simp only at h
                  cases hA : oracle (hostCall s hkey qt canonical) with
                  | failure f =>
                      rw [hA] at h
                      simp only at h
                      injection h with h2
                      subst h2
                      exact mapProviderFailure_shape _ _
                  | reply analysis =>
                      rw [hA] at h
                      simp at h

/-- C3: the HTTP status contract of failed /extract requests — the
status derived from the ErrorKind is 400 for Validation and
UnsupportedProviderForProtocol, 401 for Unauthorized, 429 for
RateLimited, 500 for Unknown — and every failure the orchestrator
surfaces carries a nonempty human-readable detail and is never the
internally recovered ProtocolDecodeFailure. -/
theorem C3_status_contract :
    statusOf .Validation = 400
    ∧ statusOf .UnsupportedProviderForProtocol = 400
    ∧ statusOf .Unauthorized = 401
    ∧ statusOf .RateLimited = 429
    ∧ statusOf .Unknown = 500
    ∧ (∀ st fb oracle q e, (orchestrate st fb oracle q).1 = .error e →
        e.detail ≠ "" ∧ e.kind ≠ .ProtocolDecodeFailure) := by
  refine ⟨rfl, rfl, rfl, rfl, rfl, ?_⟩
  intro st fb oracle q e h
  unfold orchestrate at h
  split at h
  · simp only at h
    injection h with h2
    subst h2
    exact ⟨by decide, by decide⟩
  · split at h
    · simp only at h
      injection h with h2
      subst h2
      exact ⟨by decide, by decide⟩
    · split at h
      · simp only at h
        injection h with h2
        subst h2
        exact ⟨by decide, by decide⟩
      · split at h
        · simp only at h
          injection h with h2
          subst h2
          constructor
          · apply str_ne_empty_of_data
            apply append_data_ne
            apply append_data_ne
            apply append_data_ne
            decide
          · simp
        · split at h
          · simp at h
          · exact invokePipeline_error_shape _ _ _ _ _ _ h

/-- Witness for C3: the blank-query failure carries kind Validation with
its nonempty message, and the status table gives it 400. -/
theorem C3_status_contract_witness :
    statusOf .Validation = 400
    ∧ ("Query must not be empty or whitespace-only" : String) ≠ ""
    ∧ ErrorKind.Validation ≠ ErrorKind.ProtocolDecodeFailure := by
  have h := C3_status_contract.2.2.2.2.2 ⟨0, []⟩ none (fun _ => .reply "x")
    ⟨3, " ", none⟩ ⟨.Validation, "Query must not be empty or whitespace-only"⟩ (by rfl)
  exact ⟨C3_status_contract.1, h.1, h.2⟩

/-- C7: an extraction failing with any ErrorKind never yields a partial
result — a target-call failure or a host-call failure (each including
the timeout case, which the provider client maps to Unknown) aborts with
only the classified failure and the already-received target reply is
discarded; on the client a failed response leaves the cleared result
state at none. -/
theorem C7_no_partial_result (st : Store) (fb : Option String) (oracle : Oracle)
    (q : ExtractionQuery) (s : Session) (proto : Protocol) (tkey : String)
    (hq : queryBlank q.query = false)
    (hs : findSession st q.session_id = some s)
    (hp : requestedProtocol s q = some proto)
    (hr : crossProviderViolation s proto = false)
    (hd : demoPath s fb q.query = false)
    (hk : resolveKey s.credential_bag fb s.target_llm.provider = .ok tkey) :
    (∀ f, oracle (targetCall s tkey proto (trimS q.query)) = .failure f →
      orchestrate st fb oracle q =
        (.error (mapProviderFailure s.target_llm.provider f),
          [targetCall s tkey proto (trimS q.query)])
      ∧ (mapProviderFailure s.target_llm.provider f).kind = f.kind)
    ∧ (∀ raw canonical hkey f,
        oracle (targetCall s tkey proto (trimS q.query)) = .reply raw →
        decodeStep proto raw = .ok canonical →
        resolveKey s.credential_bag fb s.host_llm.provider = .ok hkey →
        oracle (hostCall s hkey (trimS q.query) canonical) = .failure f →
        orchestrate st fb oracle q =
          (.error (mapProviderFailure s.host_llm.provider f),
            [targetCall s tkey proto (trimS q.query),
             hostCall s hkey (trimS q.query) canonical]))
    ∧ (∀ status detail, (uiAfterExtract (.err status detail)).1 = none)
    ∧ ProviderFailure.kind .unknown = .Unknown := by
  have hbase : orchestrate st fb oracle q =
      invokePipeline fb oracle s proto (trimS q.query) := by
    simp [orchestrate, hq, hs, hp, hr, hd]
  refine ⟨?_, ?_, fun status detail => rfl, rfl⟩
  · intro f hf
    rw [hbase]
    unfold invokePipeline
    rw [hk]
    simp only
    rw [hf]
    exact ⟨rfl, rfl⟩
  · intro raw canonical hkey f h1 h2 h3 h4
    rw [hbase]
    unfold invokePipeline
    rw [hk]
    simp only
    rw [h1]
    simp only
    rw [h2]
    simp only
    rw [h3]
    simp only
    rw [h4]

/-- Witness for C7: with a valid openai key, the constantly failing
provider aborts the extraction with the mapped Unknown failure after the
single target call, and the client result state stays none. -/
theorem C7_no_partial_result_witness :
    orchestrate
        ⟨1, [⟨0, ⟨"openai", "gpt-4o", "GPT-4o"⟩, ⟨"openai", "gpt-4o-mini", "GPT-4o Mini"⟩,
          .natural, 0, .active, ⟨"sk", "", ""⟩⟩]⟩ none
        (fun _ => .failure .unknown) ⟨0, "hello", some "natural"⟩ =
      (.error (mapProviderFailure "openai" ProviderFailure.unknown),
        [targetCall ⟨0, ⟨"openai", "gpt-4o", "GPT-4o"⟩,
          ⟨"openai", "gpt-4o-mini", "GPT-4o Mini"⟩, .natural, 0, .active, ⟨"sk", "", ""⟩⟩
          "sk" .natural (trimS "hello")])
    ∧ (mapProviderFailure "openai" ProviderFailure.unknown).kind =
        ProviderFailure.unknown.kind
    ∧ (uiAfterExtract (.err 500 (some "boom"))).1 = none
    ∧ ProviderFailure.kind .unknown = .Unknown := by
  have h := C7_no_partial_result
    ⟨1, [⟨0, ⟨"openai", "gpt-4o", "GPT-4o"⟩, ⟨"openai", "gpt-4o-mini", "GPT-4o Mini"⟩,
      .natural, 0, .active, ⟨"sk", "", ""⟩⟩]⟩ none
    (fun _ => .failure .unknown) ⟨0, "hello", some "natural"⟩
    ⟨0, ⟨"openai", "gpt-4o", "GPT-4o"⟩, ⟨"openai", "gpt-4o-mini", "GPT-4o Mini"⟩,
      .natural, 0, .active, ⟨"sk", "", ""⟩⟩ .natural "sk"
    (by decide) rfl rfl (by decide) (by decide) (by rfl)
  obtain ⟨h1, h2⟩ := h.1 .unknown rfl
  exact ⟨h1, h2, h.2.2.1 500 (some "boom"), h.2.2.2⟩

/-- Two sessions that agree on every listed field and on which providers
have usable keys, but may hold different secret values in their
credential bags. -/
def sameButSecrets (fb : Option String) (s t : Session) : Prop :=
  s.id = t.id ∧ s.host_llm = t.host_llm ∧ s.target_llm = t.target_llm ∧
  s.protocol = t.protocol ∧ s.created_at = t.created_at ∧ s.status = t.status ∧
  ∀ p, keyUsableFor s.credential_bag fb p = keyUsableFor t.credential_bag fb p

/-- An oracle whose replies do not depend on the key argument of a call,
only on provider, model and prompt. -/
def keyOblivious (oracle : Oracle) : Prop :=
  ∀ c c2 : InvokeCall, c.provider = c2.provider → c.model = c2.model →
    c.prompt = c2.prompt → oracle c = oracle c2

/-- When no usable key exists, resolution fails with the fixed
Unauthorized error. -/
theorem resolveKey_usable_none (bag : ApiKeys) (fb : Option String) (p : String)
    (h : keyUsableFor bag fb p = false) :
    resolveKey bag fb p = .error ⟨.Unauthorized, "Missing API key for provider " ++ p⟩ := by
  unfold keyUsableFor at h
  rw [Bool.or_eq_false_iff] at h
  obtain ⟨h1, h2⟩ := h
  unfold resolveKey
  rw [h1]
  simp only [Bool.false_eq_true, if_false]
  split
  · rename_i hdef
    rw [Bool.and_eq_false_iff] at h2
    rcases h2 with h2 | h2
    · simp [hdef] at h2
    · cases hfb : fb with
      | none => rfl
      | some f => simp [hfb] at h2
  · rfl

/-- When a usable key exists, resolution succeeds. -/
theorem resolveKey_usable_some (bag : ApiKeys) (fb : Option String) (p : String)
    (h : keyUsableFor bag fb p = true) :
    ∃ k, resolveKey bag fb p = .ok k := by
  unfold keyUsableFor at h
  rw [Bool.or_eq_true] at h
  unfold resolveKey
  cases hu : keyUsable (lookupKey bag p) with
  | true => exact ⟨(lookupKey bag p).getD "", by simp [hu]⟩
  | false =>
      rw [hu] at h
      simp only [Bool.false_eq_true, false_or, Bool.and_eq_true, decide_eq_true_eq] at h
      obtain ⟨hdef, hsome⟩ := h
      cases hfb : fb with
      | none => rw [hfb] at hsome; simp at hsome
      | some f =>
          refine ⟨f, ?_⟩
          simp [hu, hdef, hfb]

/-- The live pipeline yields equal outcomes for two sessions differing
only in credential secrets, against a key-oblivious oracle. -/
theorem invokePipeline_rel (fb : Option String) (oracle : Oracle) (a b : Session)
    (proto : Protocol) (qt : String)
    (hob : keyOblivious oracle)
    (hhost : a.host_llm = b.host_llm) (htarget : a.target_llm = b.target_llm)
    (hku : ∀ p, keyUsableFor a.credential_bag fb p = keyUsableFor b.credential_bag fb p) :
    (invokePipeline fb oracle a proto qt).1 = (invokePipeline fb oracle b proto qt).1 := by
  unfold invokePipeline
  cases hu : keyUsableFor a.credential_bag fb a.target_llm.provider with
  | false =>
      have hu2 : keyUsableFor b.credential_bag fb b.target_llm.provider = false := by
        rw [← htarget, ← hku]
        exact hu
      rw [resolveKey_usable_none _ _ _ hu, resolveKey_usable_none _ _ _ hu2]
      simp only
      rw [htarget]
  | true =>
      have hu2 : keyUsableFor b.credential_bag fb b.target_llm.provider = true := by
        rw [← htarget, ← hku]
        exact hu
      obtain ⟨k1, hk1⟩ := resolveKey_usable_some _ _ _ hu
      obtain ⟨k2, hk2⟩ := resolveKey_usable_some _ _ _ hu2
      rw [hk1, hk2]
      simp only
      have hcall : oracle (targetCall a k1 proto qt) = oracle (targetCall b k2 proto qt) := by
        apply hob
        · simp [targetCall, htarget]
        · simp [targetCall, htarget]
        · simp [targetCall]
      cases hO : oracle (targetCall a k1 proto qt) with
      | failure f =>
          rw [hcall] at hO
          rw [hO]
          simp only
          rw [htarget]
      | reply raw =>
          rw [hcall] at hO
          rw [hO]
          simp only
          cases hD : decodeStep proto raw with
          | error e0 => rfl
          | ok canonical =>
              simp only
              cases hu3 : keyUsableFor a.credential_bag fb a.host_llm.provider with
              | false =>
                  have hu4 : keyUsableFor b.credential_bag fb b.host_llm.provider = false := by
                    rw [← hhost, ← hku]
                    exact hu3
                  rw [resolveKey_usable_none _ _ _ hu3, resolveKey_usable_none _ _ _ hu4]
                  simp only
                  rw [hhost]
              | true =>
                  have hu4 : keyUsableFor b.credential_bag fb b.host_llm.provider = true := by
                    rw [← hhost, ← hku]
                    exact hu3
                  obtain ⟨k3, hk3⟩ := resolveKey_usable_some _ _ _ hu3
                  obtain ⟨k4, hk4⟩ := resolveKey_usable_some _ _ _ hu4
                  rw [hk3, hk4]
                  simp only
                  have hcall2 : oracle (hostCall a k3 qt canonical) =
                      oracle (hostCall b k4 qt canonical) := by
                    apply hob
                    · simp [hostCall, hhost]
                    · simp [hostCall, hhost]
                    · simp [hostCall]
                  cases hA : oracle (hostCall a k3 qt canonical) with
                  | failure f =>
                      rw [hcall2] at hA
                      rw [hA]
                      simp only
                      rw [hhost]
                  | reply analysis =>
                      rw [hcall2] at hA
                      rw [hA]

/-- Related stores find related sessions, or none on both sides. -/
theorem findSession_rel (fb : Option String) (l l2 : List Session)
    (h : List.Forall₂ (sameButSecrets fb) l l2) (i : Nat) :
    (l.find? (fun s => s.id = i) = none ∧ l2.find? (fun s => s.id = i) = none)
    ∨ ∃ a b, l.find? (fun s => s.id = i) = some a
        ∧ l2.find? (fun s => s.id = i) = some b ∧ sameButSecrets fb a b := by
  induction h with
  | nil => exact Or.inl ⟨rfl, rfl⟩
  | cons hab htail ih =>
      rename_i a b l1 l2
      by_cases hai : a.id = i
      · refine Or.inr ⟨a, b, ?_, ?_, hab⟩
        · rw [List.find?_cons_of_pos]
          simp [hai]
        · rw [List.find?_cons_of_pos]
          simp [← hab.1, hai]
      · have hbi : ¬ b.id = i := by
          rw [← hab.1]
          exact hai
        rcases ih with ⟨h1, h2⟩ | ⟨x, y, hx, hy, hxy⟩
        · refine Or.inl ⟨?_, ?_⟩
          · rw [List.find?_cons_of_neg]
            · exact h1
            · simp [hai]
          · rw [List.find?_cons_of_neg]
            · exact h2
            · simp [hbi]
        · refine Or.inr ⟨x, y, ?_, ?_, hxy⟩
          · rw [List.find?_cons_of_neg]
            · exact hx
            · simp [hai]
          · rw [List.find?_cons_of_neg]
            · exact hy
            · simp [hbi]

/-- C9: the listing interface exposes only id, host_llm, target_llm,
protocol, created_at and status — it is unchanged under any change of
the credential bag — and the extraction outcome exposes no credential
secret: against a key-oblivious oracle, stores that differ only in the
secret values of their credential bags produce identical extraction
outcomes. -/
theorem C9_no_secret_leak :
    (∀ s bag, sessionListView (setBag s bag) = sessionListView s)
    ∧ (∀ st st2 : Store, ∀ fb oracle q,
        List.Forall₂ (sameButSecrets fb) st.sessions st2.sessions →
        keyOblivious oracle →
        (orchestrate st fb oracle q).1 = (orchestrate st2 fb oracle q).1) := by
  constructor
  · intro s bag
    rfl
  · intro st st2 fb oracle q hrel hob
    unfold orchestrate
    cases hq : queryBlank q.query with
    | true => simp
    | false =>
        simp only [Bool.false_eq_true, if_false]
        rcases findSession_rel fb st.sessions st2.sessions hrel q.session_id with
          ⟨h1, h2⟩ | ⟨a, b, ha, hb, hab⟩
        · unfold findSession
          rw [h1, h2]
        · unfold findSession
          rw [ha, hb]
          simp only
          have hrp : requestedProtocol a q = requestedProtocol b q := by
            unfold requestedProtocol
            cases q.protocol <;> simp [hab.2.2.2.1]
          cases hp : requestedProtocol a q with
          | none =>
              rw [hrp] at hp
              rw [hp]
          | some proto =>
              rw [hrp] at hp
              rw [hp]
              simp only
              have hcv : crossProviderViolation a proto = crossProviderViolation b proto := by
                unfold crossProviderViolation
                rw [hab.2.1, hab.2.2.1]
              have hdp : demoPath a fb q.query = demoPath b fb q.query := by
                unfold demoPath
                rw [hab.2.1, hab.2.2.1, hab.2.2.2.2.2.2, hab.2.2.2.2.2.2]
              cases hv : crossProviderViolation a proto with
              | true =>
                  rw [hcv] at hv
                  rw [hv]
                  simp [hab.2.1]
              | false =>
                  rw [hcv] at hv
                  rw [hv]
                  simp only [Bool.false_eq_true, if_false]
                  cases hd : demoPath a fb q.query with
                  | true =>
                      rw [hdp] at hd
                      rw [hd]
                      simp
                  | false =>
                      rw [hdp] at hd
                      rw [hd]
                      simp only [Bool.false_eq_true, if_false]
                      exact invokePipeline_rel fb oracle a b proto (trimS q.query) hob
                        hab.2.1 hab.2.2.1 hab.2.2.2.2.2.2

/-- Witness for C9: swapping the credential bag leaves the concrete
listing entry unchanged, and two one-session stores holding different
openai secrets produce the same extraction outcome under a constant
key-oblivious oracle. -/
theorem C9_no_secret_leak_witness :
    sessionListView (setBag ⟨0, ⟨"openai", "gpt-4o", "GPT-4o"⟩,
        ⟨"openai", "gpt-4o-mini", "GPT-4o Mini"⟩, .natural, 0, .active, ⟨"sk-one", "", ""⟩⟩
        ⟨"sk-two", "", ""⟩) =
      sessionListView ⟨0, ⟨"openai", "gpt-4o", "GPT-4o"⟩,
        ⟨"openai", "gpt-4o-mini", "GPT-4o Mini"⟩, .natural, 0, .active, ⟨"sk-one", "", ""⟩⟩
    ∧ (orchestrate ⟨1, [⟨0, ⟨"openai", "gpt-4o", "GPT-4o"⟩,
        ⟨"openai", "gpt-4o-mini", "GPT-4o Mini"⟩, .natural, 0, .active,
        ⟨"sk-one", "", ""⟩⟩]⟩ none (fun _ => .reply "r") ⟨0, "hello", some "natural"⟩).1 =
      (orchestrate ⟨1, [⟨0, ⟨"openai", "gpt-4o", "GPT-4o"⟩,
        ⟨"openai", "gpt-4o-mini", "GPT-4o Mini"⟩, .natural, 0, .active,
        ⟨"sk-two", "", ""⟩⟩]⟩ none (fun _ => .reply "r") ⟨0, "hello", some "natural"⟩).1 := by
  have hku : ∀ p, keyUsableFor ⟨"sk-one", "", ""⟩ none p =
      keyUsableFor ⟨"sk-two", "", ""⟩ none p := by
    intro p
    unfold keyUsableFor
    simp only [Option.isSome_none, Bool.and_false, Bool.or_false]
    unfold lookupKey
    split_ifs <;> decide
  refine ⟨C9_no_secret_leak.1 _ _, C9_no_secret_leak.2 _ _ none (fun _ => .reply "r")
    ⟨0, "hello", some "natural"⟩ ?_ ?_⟩
  · exact List.Forall₂.cons ⟨rfl, rfl, rfl, rfl, rfl, rfl, hku⟩ List.Forall₂.nil
  · intro c c2 _ _ _
    rfl

end NeuralBridge
